import Mathlib

/-!
Shallow embedding of `src/main.mts` (sushiswap-v3-pools-atq-module): a utility
that resolves a subgraph endpoint from a network id, pages through the `pools`
entities of the subgraph, validates token names/symbols, and renders one
contract tag per accepted pool.

Modelling conventions used throughout:
* JavaScript strings are modelled as Lean `String`; character-level work goes
  through `String.data : List Char` (JS indexes UTF-16 code units, Lean code
  points; the difference only matters for astral-plane characters).
* Fallible TypeScript code (`throw`) is modelled with `Except String`;
  `console.error` / `console.log` side effects are modelled by returning the
  list of logged lines where a claim needs it.
* The upstream HTTP server is modelled as a function from request number to a
  response value; the pagination loop records the `lastTimestamp` cursor of
  every request it issues so that claims about the request trace are statable.
-/

/-- Interface `PoolToken` from `src/main.mts` (interface `PoolToken`). -/
structure PoolToken where
  id : String
  name : String
  symbol : String
deriving DecidableEq

/-- Interface `Pool` from `src/main.mts` (interface `Pool`).  `createdAtTimestamp` is a
subgraph block timestamp, modelled as `Nat`. -/
structure Pool where
  id : String
  createdAtTimestamp : Nat
  token0 : PoolToken
  token1 : PoolToken
deriving DecidableEq

/-- Record `ContractTag` (from the `atq-types` dependency): field names transcribe the
JSON keys "Contract Address", "Public Name Tag", "Project Name",
"UI/Website Link" and "Public Note". -/
structure ContractTag where
  contractAddress : String
  publicNameTag : String
  projectName : String
  uiWebsiteLink : String
  publicNote : String
deriving DecidableEq

/-- Whitespace for JavaScript's `String.prototype.trim` (space, tab, LF, CR,
VT, FF, NBSP, BOM; the remaining Unicode space characters are omitted as they
never occur in the claims' scope). -/
def isJsWhitespace (c : Char) : Bool :=
  c == ' ' || c == '\t' || c == '\n' || c == '\r' ||
  c == Char.ofNat 11 || c == Char.ofNat 12 || c == Char.ofNat 160 ||
  c == Char.ofNat 65279

/-- JavaScript `text.trim()`: strip whitespace from both ends. -/
def jsTrim (s : String) : String :=
  ⟨((s.data.dropWhile isJsWhitespace).reverse.dropWhile isJsWhitespace).reverse⟩

/-- Scan for a match of the regex `/<[^>]*>/` (from `containsHtmlOrMarkdown`,
`src/main.mts` line 110): the regex matches iff some `<` is followed, further
right, by some `>` (the first such `>` realises `[^>]*` in between). -/
def hasHtmlTagFrom : List Char → Bool
  | [] => false
  | c :: rest => (c == '<' && rest.contains '>') || hasHtmlTagFrom rest

/-- Function `containsHtmlOrMarkdown` from `src/main.mts` lines 108-115. -/
def containsHtmlOrMarkdown (text : String) : Bool :=
  hasHtmlTagFrom text.data

/-- Function `isEmptyOrInvalid` from `src/main.mts` lines 117-119:
`text.trim() === "" || containsHtmlOrMarkdown(text)` (`= ""` is expressed as
emptiness of the character list). -/
def isEmptyOrInvalid (text : String) : Bool :=
  (jsTrim text).data.isEmpty || containsHtmlOrMarkdown text

/-- Function `truncateString` from `src/main.mts` lines 165-170:
`text.length > maxLength` guards `text.substring(0, maxLength - 3) + "..."`. -/
def truncateString (text : String) (maxLength : Nat) : String :=
  if maxLength < text.length then ⟨text.data.take (maxLength - 3)⟩ ++ "..."
  else text

/-- The `token0Invalid` test from `src/main.mts` line 177. -/
def token0Invalid (pool : Pool) : Bool :=
  isEmptyOrInvalid pool.token0.name || isEmptyOrInvalid pool.token0.symbol

/-- The `token1Invalid` test from `src/main.mts` line 178. -/
def token1Invalid (pool : Pool) : Bool :=
  isEmptyOrInvalid pool.token1.name || isEmptyOrInvalid pool.token1.symbol

/-- The rejection condition `token0Invalid || token1Invalid` from
`src/main.mts` line 180. -/
def poolRejected (pool : Pool) : Bool :=
  token0Invalid pool || token1Invalid pool

/-- The diagnostic lines pushed onto `rejectedNames` for one pool
(`src/main.mts` lines 182-187); logged via `console.log`, never thrown. -/
def rejectionMessages (pool : Pool) : List String :=
  (if token0Invalid pool then
    ["Contract: " ++ pool.id ++
     " rejected due to invalid token symbol/name - Token0: " ++
     pool.token0.name ++ ", Symbol: " ++ pool.token0.symbol]
   else []) ++
  (if token1Invalid pool then
    ["Contract: " ++ pool.id ++
     " rejected due to invalid token symbol/name - Token1: " ++
     pool.token1.name ++ ", Symbol: " ++ pool.token1.symbol]
   else [])

/-- The tag record built for one valid pool (`src/main.mts` lines 197-209). -/
def mkTag (chainId : String) (pool : Pool) : ContractTag :=
  let maxSymbolsLength : Nat := 45
  let symbolsText : String := pool.token0.symbol ++ "/" ++ pool.token1.symbol
  let truncatedSymbolsText := truncateString symbolsText maxSymbolsLength
  { contractAddress := "eip155:" ++ chainId ++ ":" ++ pool.id
    publicNameTag := truncatedSymbolsText ++ " Pool"
    projectName := "SushiSwap v3"
    uiWebsiteLink := "https://www.sushi.com/"
    publicNote := "The liquidity pool contract on SushiSwap v3 for the " ++
      pool.token0.name ++ " (" ++ pool.token0.symbol ++ ") / " ++
      pool.token1.name ++ " (" ++ pool.token1.symbol ++ ") pair." }

/-- Function `transformPoolsToTags` from `src/main.mts` lines 172-210: the `forEach`
accumulating `validPools` amounts to a filter on the rejection condition, and
the final `map` builds one tag per valid pool.  Total: rejection never
throws. -/
def transformPoolsToTags (chainId : String) (pools : List Pool) : List ContractTag :=
  let validPools := pools.filter (fun pool => !poolRejected pool)
  validPools.map (fun pool => mkTag chainId pool)

/-- A sample pool whose token0 name contains an HTML-like tag. -/
def sampleBadPool : Pool :=
  { id := "0xbad"
    createdAtTimestamp := 7
    token0 := { id := "0xt0", name := "<script>", symbol := "EVL" }
    token1 := { id := "0xt1", name := "Fine Token", symbol := "FINE" } }

/-- A sample valid pool (the worked example of the specification). -/
def sampleGoodPool : Pool :=
  { id := "0xabc"
    createdAtTimestamp := 5
    token0 := { id := "0xw", name := "Wrapped Ether", symbol := "WETH" }
    token1 := { id := "0xu", name := "USD Coin", symbol := "USDC" } }

/-- A sample valid pool whose symbol pair is longer than 45 characters. -/
def sampleLongPool : Pool :=
  { id := "0xlong"
    createdAtTimestamp := 9
    token0 := { id := "0xa", name := "Alpha", symbol := "AAAAAAAAAAAAAAAAAAAAAAAAAAAAAA" }
    token1 := { id := "0xb", name := "Beta", symbol := "BBBBBBBBBBBBBBBBBBBB" } }


/-- One value of the `SUBGRAPH_URLS` record (`src/main.mts` lines 4-45). -/
structure SubgraphEntry where
  decentralized : String
deriving DecidableEq

/-- Table `SUBGRAPH_URLS` from `src/main.mts` lines 4-45, in source (insertion)
order: Arbitrum One, Avalanche C-Chain, BSC, Ethereum Mainnet, Fantom, Gnosis,
Optimism, Polygon. -/
def SUBGRAPH_URLS : List (String × SubgraphEntry) :=
  [("42161", ⟨"https://gateway.thegraph.com/api/[api-key]/subgraphs/id/4vRhyrcGqN63T7FXvL9W5X72iQN8H9fDNfLcUQBG91Wi"⟩),
   ("43114", ⟨"https://gateway.thegraph.com/api/[api-key]/subgraphs/id/HE31GSTGpXsRnuT4sAJoFayGBZX2xBQqWq4db48YuKmD"⟩),
   ("56", ⟨"https://gateway.thegraph.com/api/[api-key]/subgraphs/id/GtUp5iLfjfYXtX76wF1yyteSSC5WqnYV8br5ixHZgFmW"⟩),
   ("1", ⟨"https://gateway.thegraph.com/api/[api-key]/subgraphs/id/7okunX6MGm2pdFK7WJSwm9o82okpBLEzfGrqHDDMWYvq"⟩),
   ("250", ⟨"https://gateway.thegraph.com/api/[api-key]/subgraphs/id/6z2W9fLTVmhpCecSMTMpRNeSBTRPJLmKsSXrtdkpeJDz"⟩),
   ("100", ⟨"https://gateway.thegraph.com/api/[api-key]/subgraphs/id/hS35uHcFDVSxJQV1XWht7yMdGTRNVa9poYTpcEZ9uAQ"⟩),
   ("10", ⟨"https://gateway.thegraph.com/api/[api-key]/subgraphs/id/Hc3vTLxWmtyrn59t2Yv3MiXJVxjfNyZi41iKE3rXXHMf"⟩),
   ("137", ⟨"https://gateway.thegraph.com/api/[api-key]/subgraphs/id/G1Q6dviDfMm6hVLvCqbfeB19kLmvs7qrnBvXeFndjhaU"⟩)]

/-- Property access `SUBGRAPH_URLS[chainId]` (`src/main.mts` line 154). -/
def lookupUrls (chainId : String) : Option SubgraphEntry :=
  (SUBGRAPH_URLS.find? (fun e => e.1 == chainId)).map (fun e => e.2)

/-- Numeric value of a digit-only key, used to model JavaScript property
enumeration order. -/
def keyNum (s : String) : Nat :=
  s.data.foldl (fun acc c => acc * 10 + (c.toNat - 48)) 0

/-- Insert a key into a list sorted by `keyNum`. -/
def insertByKeyNum (k : String) : List String → List String
  | [] => [k]
  | x :: xs => if keyNum k ≤ keyNum x then k :: x :: xs else x :: insertByKeyNum k xs

/-- Model of `Object.keys(SUBGRAPH_URLS)` (`src/main.mts` line 156).  ECMAScript
enumerates integer-index keys (canonical numeric strings below 2^32-1) in
ascending numeric order before any other key; every key of `SUBGRAPH_URLS` is
such an index, so `Object.keys` returns them numerically sorted, not in
insertion order. -/
def jsObjectKeys (table : List (String × SubgraphEntry)) : List String :=
  (table.map (fun e => e.1)).foldl (fun acc k => insertByKeyNum k acc) []

/-- Digit test for JavaScript numeric-literal parsing. -/
def isDecDigit (c : Char) : Bool :=
  '0' ≤ c && c ≤ '9'

/-- Exponent part of a JS decimal literal: empty, or `e`/`E`, an optional
sign, and one or more digits consuming the rest of the input. -/
def jsExponentPartOk (cs : List Char) : Bool :=
  match cs with
  | [] => true
  | c :: rest =>
    (c == 'e' || c == 'E') &&
      (let rest' := match rest with
        | '+' :: r => r
        | '-' :: r => r
        | r => r
       let sp := rest'.span isDecDigit
       !sp.1.isEmpty && sp.2.isEmpty)

/-- Unsigned JS decimal literal: `digits`, `digits . digits*` or `. digits+`,
followed by an optional exponent part. -/
def jsUnsignedDecimalOk (cs : List Char) : Bool :=
  let sp := cs.span isDecDigit
  match sp.2 with
  | '.' :: r =>
    let sp2 := r.span isDecDigit
    (!sp.1.isEmpty || !sp2.1.isEmpty) && jsExponentPartOk sp2.2
  | r => !sp.1.isEmpty && jsExponentPartOk r

/-- Hex/octal/binary digit test for radix prefixed JS literals. -/
def isRadixDigit (radix : Nat) (c : Char) : Bool :=
  if radix == 16 then
    isDecDigit c || ('a' ≤ c && c ≤ 'f') || ('A' ≤ c && c ≤ 'F')
  else if radix == 8 then '0' ≤ c && c ≤ '7'
  else c == '0' || c == '1'

/-- Radix-prefixed JS numeric literal (`0x…`, `0o…`, `0b…`). -/
def jsRadixLiteralOk (cs : List Char) : Bool :=
  match cs with
  | '0' :: p :: rest =>
    let radix : Nat :=
      if p == 'x' || p == 'X' then 16
      else if p == 'o' || p == 'O' then 8
      else if p == 'b' || p == 'B' then 2
      else 0
    !(radix == 0) && !rest.isEmpty && rest.all (isRadixDigit radix)
  | _ => false

/-- A JS `StringNumericLiteral` after trimming: empty (value 0), a signed
decimal literal or `Infinity`, or an unsigned radix-prefixed literal. -/
def jsNumericLiteralOk (cs : List Char) : Bool :=
  match cs with
  | [] => true
  | '+' :: rest => jsUnsignedDecimalOk rest || rest == "Infinity".data
  | '-' :: rest => jsUnsignedDecimalOk rest || rest == "Infinity".data
  | _ => jsUnsignedDecimalOk cs || cs == "Infinity".data || jsRadixLiteralOk cs

/-- Models `isNaN(Number(chainId))` (`src/main.mts` line 155): `Number`
converts a string by trimming whitespace and parsing a `StringNumericLiteral`;
the result is NaN exactly when that parse fails. -/
def jsIsNaNNumber (s : String) : Bool :=
  !jsNumericLiteralOk (jsTrim s).data

/-- Characters that `encodeURIComponent` leaves unescaped:
`A–Z a–z 0–9 - _ . ! ~ * ' ( )`. -/
def isUriUnreserved (c : Char) : Bool :=
  ('A' ≤ c && c ≤ 'Z') || ('a' ≤ c && c ≤ 'z') || ('0' ≤ c && c ≤ '9') ||
  c == '-' || c == '_' || c == '.' || c == '!' || c == '~' || c == '*' ||
  c == Char.ofNat 39 || c == '(' || c == ')'

/-- The sixteen uppercase hexadecimal digit characters. -/
def hexDigitChar (n : Nat) : Char :=
  "0123456789ABCDEF".data.getD n '0'

/-- UTF-8 bytes of one character, as `Nat`s below 256. -/
def utf8Bytes (c : Char) : List Nat :=
  let n := c.toNat
  if n < 128 then [n]
  else if n < 2048 then [192 + n / 64, 128 + n % 64]
  else if n < 65536 then [224 + n / 4096, 128 + n / 64 % 64, 128 + n % 64]
  else [240 + n / 262144, 128 + n / 4096 % 64, 128 + n / 64 % 64, 128 + n % 64]

/-- Percent-escape of one byte: `%` followed by two uppercase hex digits. -/
def percentEscape (b : Nat) : List Char :=
  ['%', hexDigitChar (b / 16), hexDigitChar (b % 16)]

/-- Action of `encodeURIComponent` on one character. -/
def encodeUriChar (c : Char) : List Char :=
  if isUriUnreserved c then [c] else ((utf8Bytes c).map percentEscape).flatten

/-- JavaScript `encodeURIComponent` (`src/main.mts` line 162). -/
def encodeURIComponent (s : String) : String :=
  ⟨(s.data.map encodeUriChar).flatten⟩

/-- Replace the first occurrence of `pat` in `s` by `rep`; JavaScript
`String.prototype.replace` with a string pattern replaces only the first
occurrence (`src/main.mts` line 162). -/
def replFirst (pat rep : List Char) : List Char → List Char
  | [] => if pat.isEmpty then rep else []
  | c :: rest =>
    if pat.isPrefixOf (c :: rest) then rep ++ (c :: rest).drop pat.length
    else c :: replFirst pat rep rest

/-- JavaScript `s.replace(pat, rep)` for a string pattern. -/
def jsReplaceFirst (s pat rep : String) : String :=
  ⟨replFirst pat.data rep.data s.data⟩

/-- JavaScript `Array.prototype.join(sep)` (`src/main.mts` line 156). -/
def jsJoin (sep : String) : List String → String
  | [] => ""
  | [x] => x
  | x :: y :: xs => x ++ sep ++ jsJoin sep (y :: xs)

/-- The error message thrown for an unsupported chain id
(`src/main.mts` lines 158-160). -/
def unsupportedMsg (chainId : String) : String :=
  "Unsupported or invalid Chain ID provided: " ++ chainId ++
  ". Only the following values are accepted: " ++
  jsJoin ", " (jsObjectKeys SUBGRAPH_URLS)

/-- Function `prepareUrl` from `src/main.mts` lines 153-163. -/
def prepareUrl (chainId apiKey : String) : Except String String :=
  match lookupUrls chainId with
  | none => .error (unsupportedMsg chainId)
  | some urls =>
    if jsIsNaNNumber chainId then .error (unsupportedMsg chainId)
    else .ok (jsReplaceFirst urls.decentralized "[api-key]" (encodeURIComponent apiKey))

/-- Substring scan: does `p` occur as a contiguous run inside `s`? -/
def hasSubstr (p : List Char) : List Char → Bool
  | [] => p.isEmpty
  | c :: rest => p.isPrefixOf (c :: rest) || hasSubstr p rest

/-- A GraphQL error object `{ message: string }` (`src/main.mts` line 66). -/
structure GQLError where
  message : String
deriving DecidableEq

/-- Interface `GraphQLData` (`src/main.mts` lines 60-62); `pools` is optional because the
runtime check `!result.data.pools` guards against a payload missing it. -/
structure GraphQLData where
  pools : Option (List Pool)
deriving DecidableEq

/-- Interface `GraphQLResponse` (`src/main.mts` lines 64-67): both fields optional. -/
structure GraphQLResponse where
  data : Option GraphQLData
  errors : Option (List GQLError)
deriving DecidableEq

/-- The observable part of a `fetch` response: `ok`, `status`, and the parsed
JSON body. -/
structure HttpResponse where
  ok : Bool
  status : Nat
  body : GraphQLResponse
deriving DecidableEq

/-- Function `fetchData` from `src/main.mts` lines 121-151, given the response the
network produced for the issued request.  First component: the lines written
by `console.error` (one `GraphQL error: …` line per entry of `errors`, logged
before the aggregate error is thrown); second component: the thrown error or
the returned pool page.  `if (result.errors)` is a truthiness test, so ANY
present `errors` array — including `[]` — takes the error branch. -/
def fetchData (response : HttpResponse) : List String × Except String (List Pool) :=
  if response.ok = false then
    ([], .error ("HTTP error: " ++ toString response.status))
  else
    match response.body.errors with
    | some errs =>
      (errs.map (fun e => "GraphQL error: " ++ e.message),
       .error "GraphQL errors occurred: see logs for details.")
    | none =>
      match response.body.data with
      | none => ([], .error "No pools data found.")
      | some d =>
        match d.pools with
        | none => ([], .error "No pools data found.")
        | some pools => ([], .ok pools)

/-- Placeholder pool for the (unreachable) `pools[pools.length - 1]` access on
an empty page: the access is guarded by `pools.length === 1000`. -/
def defaultPool : Pool :=
  { id := "", createdAtTimestamp := 0
    token0 := ⟨"", "", ""⟩, token1 := ⟨"", "", ""⟩ }

/-- The `while (isMore)` loop of `returnTags` (`src/main.mts` lines 225-246),
with the upstream modelled as `server : request number → response` and with
the cursor (`lastTimestamp`) of every issued request recorded in `reqs`.
`fuel` bounds the number of iterations (`none` = still looping after `fuel`
requests).  Notes kept from the source: `parseInt(x.toString(), 10)` is the
identity on the `Nat`-valued timestamp, so the watermark update is a plain
assignment; every thrown error is a string, so the `isError` type guard
(lines 99-106) always takes its first branch and the catch block rethrows
`Failed fetching data: Error: <message>` (template-string conversion of an
`Error` prepends `Error: `). -/
def returnTagsAux (chainId : String) (server : Nat → HttpResponse) :
    Nat → Nat → Nat → List ContractTag → List Nat →
    Option (List Nat × Except String (List ContractTag))
  | 0, _, _, _, _ => none
  | fuel + 1, i, lastTimestamp, allTags, reqs =>
    let reqs' := reqs ++ [lastTimestamp]
    match (fetchData (server i)).2 with
    | .error e => some (reqs', .error ("Failed fetching data: Error: " ++ e))
    | .ok pools =>
      let allTags' := allTags ++ transformPoolsToTags chainId pools
      if pools.length == 1000 then
        returnTagsAux chainId server fuel (i + 1)
          ((pools.getLastD defaultPool).createdAtTimestamp) allTags' reqs'
      else some (reqs', .ok allTags')

/-- Function `returnTags` from `src/main.mts` lines 215-248: resolve the URL (a failure
there propagates unwrapped, before any request is issued — the request trace
is `[]`), then run the pagination loop from watermark 0. -/
def returnTags (chainId apiKey : String) (server : Nat → HttpResponse)
    (fuel : Nat) : Option (List Nat × Except String (List ContractTag)) :=
  match prepareUrl chainId apiKey with
  | .error e => some ([], .error e)
  | .ok _url => returnTagsAux chainId server fuel 0 0 [] []

/-- A successful upstream response carrying the given page of pools. -/
def pageResponse (pools : List Pool) : HttpResponse :=
  { ok := true, status := 200
    body := { data := some { pools := some pools }, errors := none } }

/-- Mock upstream delivering pages of sizes 1000, 1000, 400. -/
def threePageServer : Nat → HttpResponse := fun i =>
  if i < 2 then pageResponse (List.replicate 1000 sampleGoodPool)
  else pageResponse (List.replicate 400 sampleGoodPool)

/-- Mock upstream delivering a single empty page. -/
def emptyPageServer : Nat → HttpResponse := fun _ => pageResponse []

/-- A response whose body carries both `data.pools` and a non-empty `errors`
array. -/
def boomResponse : HttpResponse :=
  { ok := true, status := 200
    body := { data := some { pools := some [sampleGoodPool] }
              errors := some [{ message := "boom" }] } }

/-- Mock upstream that always answers with `boomResponse`. -/
def boomServer : Nat → HttpResponse := fun _ => boomResponse

/-- A response whose body carries `data.pools` and `errors: []`. -/
def emptyErrorsResponse : HttpResponse :=
  { ok := true, status := 200
    body := { data := some { pools := some [sampleGoodPool] }
              errors := some [] } }

lemma isPrefixOf_self_append (p b : List Char) : p.isPrefixOf (p ++ b) = true :=
  List.isPrefixOf_iff_prefix.mpr ⟨b, rfl⟩

lemma hasSubstr_self_append (p b : List Char) : hasSubstr p (p ++ b) = true := by
  cases p with
  | nil =>
    cases b with
    | nil => rfl
    | cons c r => simp [hasSubstr, List.isPrefixOf]
  | cons x xs =>
    rw [List.cons_append]
    show ((x :: xs).isPrefixOf (x :: (xs ++ b)) || hasSubstr (x :: xs) (xs ++ b)) = true
    rw [← List.cons_append, isPrefixOf_self_append, Bool.true_or]

lemma hasSubstr_parts (p : List Char) :
    ∀ a b : List Char, hasSubstr p (a ++ (p ++ b)) = true := by
  intro a
  induction a with
  | nil => intro b; rw [List.nil_append]; exact hasSubstr_self_append p b
  | cons c a' ih =>
    intro b
    rw [List.cons_append]
    show (p.isPrefixOf (c :: (a' ++ (p ++ b))) || hasSubstr p (a' ++ (p ++ b))) = true
    rw [ih b, Bool.or_true]

lemma hasSubstr_append_left (p s t : List Char) (h : hasSubstr p t = true) :
    hasSubstr p (s ++ t) = true := by
  induction s with
  | nil => rwa [List.nil_append]
  | cons c s' ih =>
    rw [List.cons_append]
    show (p.isPrefixOf (c :: (s' ++ t)) || hasSubstr p (s' ++ t)) = true
    rw [ih, Bool.or_true]

lemma mem_of_isPrefixOf {p s : List Char} {c : Char}
    (h : p.isPrefixOf s = true) (hc : c ∈ p) : c ∈ s :=
  (List.isPrefixOf_iff_prefix.mp h).sublist.subset hc

lemma mem_of_hasSubstr {p : List Char} {c : Char} (hc : c ∈ p) :
    ∀ {s : List Char}, hasSubstr p s = true → c ∈ s := by
  intro s
  induction s with
  | nil =>
    intro h
    have : p = [] := by
      cases p with
      | nil => rfl
      | cons x xs => exact absurd h (by simp [hasSubstr])
    subst this
    exact absurd hc (List.not_mem_nil c)
  | cons x rest ih =>
    intro h
    rcases Bool.or_eq_true_iff.mp h with h1 | h2
    · exact mem_of_isPrefixOf h1 hc
    · exact List.mem_cons_of_mem x (ih h2)

lemma hexDigitChar_ne_bracket (n : Nat) : hexDigitChar n ≠ '[' := by
  unfold hexDigitChar
  rcases Nat.lt_or_ge n 16 with h | h
  · interval_cases n <;> decide
  · have hlen : ("0123456789ABCDEF".data).length = 16 := rfl
    rw [List.getD_eq_default _ _ (by rw [hlen]; exact h)]
    decide

lemma bracket_not_mem_encodeUriChar (c : Char) : '[' ∉ encodeUriChar c := by
  unfold encodeUriChar
  by_cases h : isUriUnreserved c = true
  · rw [if_pos h]
    intro hm
    rcases List.mem_singleton.mp hm with rfl
    exact absurd h (by decide)
  · rw [if_neg h]
    intro hm
    rw [List.mem_flatten] at hm
    obtain ⟨l, hl, hcl⟩ := hm
    rw [List.mem_map] at hl
    obtain ⟨b, _, rfl⟩ := hl
    have hdisj : '[' = '%' ∨ '[' = hexDigitChar (b / 16) ∨ '[' = hexDigitChar (b % 16) := by
      simpa [percentEscape] using hcl
    rcases hdisj with h1 | h1 | h1
    · exact absurd h1 (by decide)
    · exact hexDigitChar_ne_bracket (b / 16) h1.symm
    · exact hexDigitChar_ne_bracket (b % 16) h1.symm

lemma bracket_not_mem_encode (s : String) : '[' ∉ (encodeURIComponent s).data := by
  intro hm
  have hdef : (encodeURIComponent s).data = (s.data.map encodeUriChar).flatten := rfl
  rw [hdef, List.mem_flatten] at hm
  obtain ⟨l, hl, hcl⟩ := hm
  rw [List.mem_map] at hl
  obtain ⟨c, _, rfl⟩ := hl
  exact bracket_not_mem_encodeUriChar c hcl

lemma replFirst_placeholder (rep : List Char) :
    ∀ pre : List Char, '[' ∉ pre → ∀ suf : List Char,
      replFirst "[api-key]".data rep (pre ++ ("[api-key]".data ++ suf)) =
        pre ++ (rep ++ suf) := by
  intro pre
  induction pre with
  | nil =>
    intro _ suf
    rw [List.nil_append, List.nil_append]
    show replFirst "[api-key]".data rep ('[' :: ("api-key]".data ++ suf)) = rep ++ suf
    rw [replFirst]
    rw [if_pos (by rw [← List.cons_append]; exact isPrefixOf_self_append _ _)]
    congr 1
  | cons c pre' ih =>
    intro hnm suf
    have hc : ('[' : Char) ≠ c := fun h => hnm (h ▸ List.mem_cons_self c pre')
    have hpre' : '[' ∉ pre' := fun h => hnm (List.mem_cons_of_mem c h)
    rw [List.cons_append, replFirst]
    rw [if_neg ?hneg]
    case hneg =>
      show ¬("[api-key]".data.isPrefixOf (c :: (pre' ++ ("[api-key]".data ++ suf))) = true)
      show ¬((('[' == c) && ("api-key]".data.isPrefixOf (pre' ++ ("[api-key]".data ++ suf)))) = true)
      rw [beq_eq_false_iff_ne.mpr hc, Bool.false_and]
      exact Bool.false_ne_true
    rw [ih hpre' suf, List.cons_append]

lemma prepareUrl_ok (nid apiKey : String) (entry : SubgraphEntry)
    (pre suf : String)
    (hfind : lookupUrls nid = some entry)
    (hnum : jsIsNaNNumber nid = false)
    (hsplit : entry.decentralized = pre ++ "[api-key]" ++ suf)
    (hpre : '[' ∉ pre.data) (hsuf : '[' ∉ suf.data) :
    prepareUrl nid apiKey = .ok (pre ++ encodeURIComponent apiKey ++ suf) ∧
    hasSubstr "[api-key]".data (pre ++ encodeURIComponent apiKey ++ suf).data = false := by
  have hdata : entry.decentralized.data =
      pre.data ++ ("[api-key]".data ++ suf.data) := by
    rw [hsplit, String.data_append, String.data_append, List.append_assoc]
  have hresdata : (pre ++ encodeURIComponent apiKey ++ suf).data =
      pre.data ++ ((encodeURIComponent apiKey).data ++ suf.data) := by
    rw [String.data_append, String.data_append, List.append_assoc]
  constructor
  · unfold prepareUrl
    rw [hfind]
    show (if jsIsNaNNumber nid = true then _ else _) = _
    rw [if_neg (by rw [hnum]; exact Bool.false_ne_true)]
    unfold jsReplaceFirst
    rw [hdata, replFirst_placeholder _ pre.data hpre suf.data]
    refine congrArg Except.ok ?_
    apply String.ext
    rw [hresdata]
  · rw [hresdata]
    refine Bool.eq_false_iff.mpr (fun h => ?_)
    have hmem := mem_of_hasSubstr (by decide : '[' ∈ "[api-key]".data) h
    rcases List.mem_append.mp hmem with h1 | h2
    · exact hpre h1
    rcases List.mem_append.mp h2 with h3 | h4
    · exact bracket_not_mem_encode apiKey h3
    · exact hsuf h4

lemma aux_step_error (chainId : String) (server : Nat → HttpResponse)
    (fuel i ts : Nat) (acc : List ContractTag) (reqs : List Nat) (e : String)
    (he : (fetchData (server i)).2 = .error e) :
    returnTagsAux chainId server (fuel + 1) i ts acc reqs =
      some (reqs ++ [ts], .error ("Failed fetching data: Error: " ++ e)) := by
  simp only [returnTagsAux, he]

lemma aux_step_full (chainId : String) (server : Nat → HttpResponse)
    (fuel i ts : Nat) (acc : List ContractTag) (reqs : List Nat)
    (pools : List Pool)
    (hok : (fetchData (server i)).2 = .ok pools) (hlen : pools.length = 1000) :
    returnTagsAux chainId server (fuel + 1) i ts acc reqs =
      returnTagsAux chainId server fuel (i + 1)
        ((pools.getLastD defaultPool).createdAtTimestamp)
        (acc ++ transformPoolsToTags chainId pools) (reqs ++ [ts]) := by
  simp only [returnTagsAux, hok, hlen, beq_self_eq_true, if_true]

lemma aux_step_short (chainId : String) (server : Nat → HttpResponse)
    (fuel i ts : Nat) (acc : List ContractTag) (reqs : List Nat)
    (pools : List Pool)
    (hok : (fetchData (server i)).2 = .ok pools) (hlen : pools.length ≠ 1000) :
    returnTagsAux chainId server (fuel + 1) i ts acc reqs =
      some (reqs ++ [ts], .ok (acc ++ transformPoolsToTags chainId pools)) := by
  have hb : (pools.length == 1000) = false := beq_eq_false_iff_ne.mpr hlen
  simp only [returnTagsAux, hok, hb, Bool.false_eq_true, if_false]

lemma aux_errs (chainId : String) (server : Nat → HttpResponse)
    (pages : Nat → List Pool) (e : String) :
    ∀ k i fuel ts acc reqs,
      (∀ j, j < k → (fetchData (server (i + j))).2 = .ok (pages (i + j)) ∧
        (pages (i + j)).length = 1000) →
      (fetchData (server (i + k))).2 = .error e →
      k < fuel →
      ∃ reqs', returnTagsAux chainId server fuel i ts acc reqs =
        some (reqs', .error ("Failed fetching data: Error: " ++ e)) := by
  intro k
  induction k with
  | zero =>
    intro i fuel ts acc reqs _ herr hf
    obtain ⟨f, rfl⟩ : ∃ f, fuel = f + 1 := ⟨fuel - 1, by omega⟩
    rw [Nat.add_zero] at herr
    exact ⟨reqs ++ [ts], aux_step_error chainId server f i ts acc reqs e herr⟩
  | succ k ih =>
    intro i fuel ts acc reqs hfull herr hf
    obtain ⟨f, rfl⟩ : ∃ f, fuel = f + 1 := ⟨fuel - 1, by omega⟩
    have h0 := hfull 0 (by omega)
    rw [Nat.add_zero] at h0
    rw [aux_step_full chainId server f i ts acc reqs _ h0.1 h0.2]
    refine ih (i + 1) f _ _ _ (fun j hj => ?_) ?_ (by omega)
    · have := hfull (j + 1) (by omega)
      rwa [show i + (j + 1) = i + 1 + j from by omega] at this
    · rwa [show i + (k + 1) = i + 1 + k from by omega] at herr

lemma aux_terminates (chainId : String) (server : Nat → HttpResponse) :
    ∀ k i fuel ts acc reqs, k < fuel →
      (∃ pk, (fetchData (server (i + k))).2 = .ok pk ∧ pk.length < 1000) →
      ∃ r, returnTagsAux chainId server fuel i ts acc reqs = some r := by
  intro k
  induction k with
  | zero =>
    intro i fuel ts acc reqs hf hex
    obtain ⟨pk, hok, hlen⟩ := hex
    obtain ⟨f, rfl⟩ : ∃ f, fuel = f + 1 := ⟨fuel - 1, by omega⟩
    rw [Nat.add_zero] at hok
    exact ⟨_, aux_step_short chainId server f i ts acc reqs pk hok (by omega)⟩
  | succ k ih =>
    intro i fuel ts acc reqs hf hex
    obtain ⟨f, rfl⟩ : ∃ f, fuel = f + 1 := ⟨fuel - 1, by omega⟩
    cases hfetch : (fetchData (server i)).2 with
    | error e =>
      exact ⟨_, aux_step_error chainId server f i ts acc reqs e hfetch⟩
    | ok pools =>
      by_cases hlen : pools.length = 1000
      · rw [aux_step_full chainId server f i ts acc reqs pools hfetch hlen]
        refine ih (i + 1) f _ _ _ (by omega) ?_
        obtain ⟨pk, hok, hl⟩ := hex
        exact ⟨pk, by rwa [show i + 1 + k = i + (k + 1) from by omega], hl⟩
      · exact ⟨_, aux_step_short chainId server f i ts acc reqs pools hfetch hlen⟩

lemma prepareUrl_case (nid apiKey : String) (entry : SubgraphEntry) (pre suf : String)
    (hfind : lookupUrls nid = some entry)
    (hnum : jsIsNaNNumber nid = false)
    (hsplit : entry.decentralized = pre ++ "[api-key]" ++ suf)
    (hpre : '[' ∉ pre.data) (hsuf : '[' ∉ suf.data) :
    ∃ entry' pre' suf', lookupUrls nid = some entry' ∧
      entry'.decentralized = pre' ++ "[api-key]" ++ suf' ∧
      prepareUrl nid apiKey = .ok (pre' ++ encodeURIComponent apiKey ++ suf') ∧
      hasSubstr "[api-key]".data
        (pre' ++ encodeURIComponent apiKey ++ suf').data = false := by
  obtain ⟨h1, h2⟩ := prepareUrl_ok nid apiKey entry pre suf hfind hnum hsplit hpre hsuf
  exact ⟨entry, pre, suf, hfind, hsplit, h1, h2⟩

/-- C2: a pool either of whose tokens has a name or symbol that is empty after
trimming or contains an HTML/XML-like tag contributes no `ContractTag` to the
output of `transformPoolsToTags`: every output tag originates from a pool that
passes validation, hence from a pool distinct from the rejected one, so the
rejected pool is dropped in full; and the transformation is total, so the
rejection raises no error. -/
theorem rejected_pool_yields_no_tag (chainId : String) (pools : List Pool)
    (p : Pool) (hp : p ∈ pools)
    (hbad : token0Invalid p = true ∨ token1Invalid p = true) :
    ∀ t ∈ transformPoolsToTags chainId pools,
      ∃ q, q ∈ pools ∧ poolRejected q = false ∧ t = mkTag chainId q ∧ q ≠ p := by
  intro t ht
  unfold transformPoolsToTags at ht
  simp only [List.mem_map, List.mem_filter, Bool.not_eq_true'] at ht
  obtain ⟨q, ⟨hq, hvalid⟩, rfl⟩ := ht
  refine ⟨q, hq, hvalid, rfl, ?_⟩
  rintro rfl
  rcases hbad with h | h <;> simp [poolRejected, h] at hvalid

/-- Concrete run of `rejected_pool_yields_no_tag`: the bad pool (token0 name
`"<script>"`) yields no tag in a two-pool input. -/
theorem rejected_pool_yields_no_tag_witness :
    sampleBadPool ∈ [sampleBadPool, sampleGoodPool] ∧
    (token0Invalid sampleBadPool = true ∨ token1Invalid sampleBadPool = true) ∧
    (∀ t ∈ transformPoolsToTags "1" [sampleBadPool, sampleGoodPool],
      ∃ q, q ∈ [sampleBadPool, sampleGoodPool] ∧ poolRejected q = false ∧
        t = mkTag "1" q ∧ q ≠ sampleBadPool) :=
  ⟨by decide, Or.inl (by decide),
    rejected_pool_yields_no_tag "1" [sampleBadPool, sampleGoodPool]
      sampleBadPool (by decide) (Or.inl (by decide))⟩

/-- C3: every accepted pool's tag has "Contract Address" equal to
`"eip155:" ++ networkId ++ ":" ++ pool.id`, and that tag appears in the output
of `transformPoolsToTags`. -/
theorem accepted_pool_contract_address (chainId : String) (pools : List Pool)
    (p : Pool) (hp : p ∈ pools) (hok : poolRejected p = false) :
    (mkTag chainId p).contractAddress = "eip155:" ++ chainId ++ ":" ++ p.id ∧
    mkTag chainId p ∈ transformPoolsToTags chainId pools := by
  refine ⟨rfl, ?_⟩
  unfold transformPoolsToTags
  simp only [List.mem_map, List.mem_filter, Bool.not_eq_true']
  exact ⟨p, ⟨hp, hok⟩, rfl⟩

/-- Concrete run of `accepted_pool_contract_address` on the specification's
worked example: network id "1", pool id "0xabc", symbols WETH/USDC; the
address is "eip155:1:0xabc" and the name tag is "WETH/USDC Pool". -/
theorem accepted_pool_contract_address_witness :
    sampleGoodPool ∈ [sampleGoodPool] ∧
    poolRejected sampleGoodPool = false ∧
    ((mkTag "1" sampleGoodPool).contractAddress =
        "eip155:" ++ "1" ++ ":" ++ sampleGoodPool.id ∧
      mkTag "1" sampleGoodPool ∈ transformPoolsToTags "1" [sampleGoodPool]) ∧
    (mkTag "1" sampleGoodPool).contractAddress = "eip155:1:0xabc" ∧
    (mkTag "1" sampleGoodPool).publicNameTag = "WETH/USDC Pool" :=
  ⟨by decide, by decide,
    accepted_pool_contract_address "1" [sampleGoodPool] sampleGoodPool
      (by decide) (by decide),
    by decide, by decide⟩

/-- C4: for an accepted pool, write `s` for `token0.symbol ++ "/" ++
token1.symbol`. When `s` has length at most 45 the "Public Name Tag" keeps `s`
unchanged; when it is longer, `s` is replaced by its first 42 characters
followed by `"..."`, and the truncated string has length exactly 45 and ends
with `"..."`. -/
theorem symbol_pair_truncation (chainId : String) (p : Pool)
    (hok : poolRejected p = false) :
    ((p.token0.symbol ++ "/" ++ p.token1.symbol).length ≤ 45 →
      (mkTag chainId p).publicNameTag =
        (p.token0.symbol ++ "/" ++ p.token1.symbol) ++ " Pool") ∧
    (45 < (p.token0.symbol ++ "/" ++ p.token1.symbol).length →
      (mkTag chainId p).publicNameTag =
        ((⟨(p.token0.symbol ++ "/" ++ p.token1.symbol).data.take 42⟩ : String)
          ++ "...") ++ " Pool" ∧
      (truncateString (p.token0.symbol ++ "/" ++ p.token1.symbol) 45).length = 45 ∧
      ∃ a, (truncateString (p.token0.symbol ++ "/" ++ p.token1.symbol) 45).data =
        a ++ "...".data) := by
  have hpn : (mkTag chainId p).publicNameTag =
      truncateString (p.token0.symbol ++ "/" ++ p.token1.symbol) 45 ++ " Pool" := rfl
  constructor
  · intro hle
    rw [hpn]
    have : truncateString (p.token0.symbol ++ "/" ++ p.token1.symbol) 45 =
        p.token0.symbol ++ "/" ++ p.token1.symbol := by
      unfold truncateString
      rw [if_neg (Nat.not_lt.mpr hle)]
    rw [this]
  · intro hgt
    have htr : truncateString (p.token0.symbol ++ "/" ++ p.token1.symbol) 45 =
        (⟨(p.token0.symbol ++ "/" ++ p.token1.symbol).data.take 42⟩ : String)
          ++ "..." := by
      unfold truncateString
      rw [if_pos hgt]
    refine ⟨by rw [hpn, htr], ?_, ?_⟩
    · rw [htr, String.length_append]
      have h1 : ((⟨(p.token0.symbol ++ "/" ++ p.token1.symbol).data.take 42⟩ :
          String)).length =
          min 42 (p.token0.symbol ++ "/" ++ p.token1.symbol).data.length :=
        List.length_take 42 _
      have h2 : (p.token0.symbol ++ "/" ++ p.token1.symbol).data.length =
          (p.token0.symbol ++ "/" ++ p.token1.symbol).length := rfl
      have h3 : ("..." : String).length = 3 := rfl
      omega
    · exact ⟨(p.token0.symbol ++ "/" ++ p.token1.symbol).data.take 42,
        by rw [htr]; exact String.data_append _ _⟩

/-- Concrete run of `symbol_pair_truncation` on a 51-character symbol pair. -/
theorem symbol_pair_truncation_witness :
    poolRejected sampleLongPool = false ∧
    (((sampleLongPool.token0.symbol ++ "/" ++ sampleLongPool.token1.symbol).length ≤ 45 →
      (mkTag "1" sampleLongPool).publicNameTag =
        (sampleLongPool.token0.symbol ++ "/" ++ sampleLongPool.token1.symbol) ++ " Pool") ∧
    (45 < (sampleLongPool.token0.symbol ++ "/" ++ sampleLongPool.token1.symbol).length →
      (mkTag "1" sampleLongPool).publicNameTag =
        ((⟨(sampleLongPool.token0.symbol ++ "/" ++
            sampleLongPool.token1.symbol).data.take 42⟩ : String)
          ++ "...") ++ " Pool" ∧
      (truncateString (sampleLongPool.token0.symbol ++ "/" ++
        sampleLongPool.token1.symbol) 45).length = 45 ∧
      ∃ a, (truncateString (sampleLongPool.token0.symbol ++ "/" ++
          sampleLongPool.token1.symbol) 45).data = a ++ "...".data)) :=
  ⟨by decide, symbol_pair_truncation "1" sampleLongPool (by decide)⟩

/-- C6: for a network id that is absent from the endpoint table or does not
parse as a number, `prepareUrl` fails with the unsupported-network error; the
message enumerates every supported network identifier, sorted (ascending
numeric order, as `Object.keys` enumerates integer-index keys) and joined with
", "; and the failure is raised before any network call: `returnTags` returns
the same error with an empty request trace. -/
theorem prepareUrl_unsupported (nid apiKey : String)
    (h : lookupUrls nid = none ∨ jsIsNaNNumber nid = true) :
    prepareUrl nid apiKey = .error (unsupportedMsg nid) ∧
    (∀ k ∈ SUBGRAPH_URLS.map (fun e => e.1),
      hasSubstr k.data (unsupportedMsg nid).data = true) ∧
    List.Pairwise (fun a b => keyNum a ≤ keyNum b) (jsObjectKeys SUBGRAPH_URLS) ∧
    jsJoin ", " (jsObjectKeys SUBGRAPH_URLS) =
      "1, 10, 56, 100, 137, 250, 42161, 43114" ∧
    (∀ server fuel, returnTags nid apiKey server fuel =
      some ([], .error (unsupportedMsg nid))) := by
  have herr : prepareUrl nid apiKey = .error (unsupportedMsg nid) := by
    rcases h with h | h
    · unfold prepareUrl
      rw [h]
    · unfold prepareUrl
      cases hfind : lookupUrls nid with
      | none => rfl
      | some entry => exact if_pos h
  have htail : ∀ k : String,
      hasSubstr k.data ((". Only the following values are accepted: " ++
        jsJoin ", " (jsObjectKeys SUBGRAPH_URLS)).data) = true →
      hasSubstr k.data (unsupportedMsg nid).data = true := by
    intro k hk
    have hd : (unsupportedMsg nid).data =
        ("Unsupported or invalid Chain ID provided: ".data ++ nid.data) ++
        (". Only the following values are accepted: " ++
          jsJoin ", " (jsObjectKeys SUBGRAPH_URLS)).data := by
      simp only [unsupportedMsg, String.data_append, List.append_assoc]
    rw [hd]
    exact hasSubstr_append_left _ _ _ hk
  refine ⟨herr, ?_, by decide, by decide, ?_⟩
  · intro k hk
    simp only [SUBGRAPH_URLS, List.map_cons, List.map_nil, List.mem_cons,
      List.not_mem_nil, or_false] at hk
    rcases hk with rfl | rfl | rfl | rfl | rfl | rfl | rfl | rfl <;>
      exact htail _ (by decide)
  · intro server fuel
    unfold returnTags
    rw [herr]

/-- Concrete run of `prepareUrl_unsupported` on the non-numeric identifier
"foo" (also absent from the table). -/
theorem prepareUrl_unsupported_witness :
    (lookupUrls "foo" = none ∨ jsIsNaNNumber "foo" = true) ∧
    (prepareUrl "foo" "secret" = .error (unsupportedMsg "foo") ∧
    (∀ k ∈ SUBGRAPH_URLS.map (fun e => e.1),
      hasSubstr k.data (unsupportedMsg "foo").data = true) ∧
    List.Pairwise (fun a b => keyNum a ≤ keyNum b) (jsObjectKeys SUBGRAPH_URLS) ∧
    jsJoin ", " (jsObjectKeys SUBGRAPH_URLS) =
      "1, 10, 56, 100, 137, 250, 42161, 43114" ∧
    (∀ server fuel, returnTags "foo" "secret" server fuel =
      some ([], .error (unsupportedMsg "foo")))) :=
  ⟨Or.inr (by decide), prepareUrl_unsupported "foo" "secret" (Or.inr (by decide))⟩

/-- C7: for every supported network identifier and every credential,
`prepareUrl` returns the table's URL template with the percent-encoded
credential substituted for the `[api-key]` placeholder, and the returned URL
contains no remaining occurrence of the placeholder text. -/
theorem prepareUrl_substitutes (nid apiKey : String)
    (hmem : nid ∈ SUBGRAPH_URLS.map (fun e => e.1)) :
    ∃ entry pre suf, lookupUrls nid = some entry ∧
      entry.decentralized = pre ++ "[api-key]" ++ suf ∧
      prepareUrl nid apiKey = .ok (pre ++ encodeURIComponent apiKey ++ suf) ∧
      hasSubstr "[api-key]".data
        (pre ++ encodeURIComponent apiKey ++ suf).data = false := by
  simp only [SUBGRAPH_URLS, List.map_cons, List.map_nil, List.mem_cons,
    List.not_mem_nil, or_false] at hmem
  rcases hmem with rfl | rfl | rfl | rfl | rfl | rfl | rfl | rfl
  · exact prepareUrl_case "42161" apiKey
      ⟨"https://gateway.thegraph.com/api/[api-key]/subgraphs/id/4vRhyrcGqN63T7FXvL9W5X72iQN8H9fDNfLcUQBG91Wi"⟩
      "https://gateway.thegraph.com/api/"
      "/subgraphs/id/4vRhyrcGqN63T7FXvL9W5X72iQN8H9fDNfLcUQBG91Wi"
      (by decide) (by decide) (by decide) (by decide) (by decide)
  · exact prepareUrl_case "43114" apiKey
      ⟨"https://gateway.thegraph.com/api/[api-key]/subgraphs/id/HE31GSTGpXsRnuT4sAJoFayGBZX2xBQqWq4db48YuKmD"⟩
      "https://gateway.thegraph.com/api/"
      "/subgraphs/id/HE31GSTGpXsRnuT4sAJoFayGBZX2xBQqWq4db48YuKmD"
      (by decide) (by decide) (by decide) (by decide) (by decide)
  · exact prepareUrl_case "56" apiKey
      ⟨"https://gateway.thegraph.com/api/[api-key]/subgraphs/id/GtUp5iLfjfYXtX76wF1yyteSSC5WqnYV8br5ixHZgFmW"⟩
      "https://gateway.thegraph.com/api/"
      "/subgraphs/id/GtUp5iLfjfYXtX76wF1yyteSSC5WqnYV8br5ixHZgFmW"
      (by decide) (by decide) (by decide) (by decide) (by decide)
  · exact prepareUrl_case "1" apiKey
      ⟨"https://gateway.thegraph.com/api/[api-key]/subgraphs/id/7okunX6MGm2pdFK7WJSwm9o82okpBLEzfGrqHDDMWYvq"⟩
      "https://gateway.thegraph.com/api/"
      "/subgraphs/id/7okunX6MGm2pdFK7WJSwm9o82okpBLEzfGrqHDDMWYvq"
      (by decide) (by decide) (by decide) (by decide) (by decide)
  · exact prepareUrl_case "250" apiKey
      ⟨"https://gateway.thegraph.com/api/[api-key]/subgraphs/id/6z2W9fLTVmhpCecSMTMpRNeSBTRPJLmKsSXrtdkpeJDz"⟩
      "https://gateway.thegraph.com/api/"
      "/subgraphs/id/6z2W9fLTVmhpCecSMTMpRNeSBTRPJLmKsSXrtdkpeJDz"
      (by decide) (by decide) (by decide) (by decide) (by decide)
  · exact prepareUrl_case "100" apiKey
      ⟨"https://gateway.thegraph.com/api/[api-key]/subgraphs/id/hS35uHcFDVSxJQV1XWht7yMdGTRNVa9poYTpcEZ9uAQ"⟩
      "https://gateway.thegraph.com/api/"
      "/subgraphs/id/hS35uHcFDVSxJQV1XWht7yMdGTRNVa9poYTpcEZ9uAQ"
      (by decide) (by decide) (by decide) (by decide) (by decide)
  · exact prepareUrl_case "10" apiKey
      ⟨"https://gateway.thegraph.com/api/[api-key]/subgraphs/id/Hc3vTLxWmtyrn59t2Yv3MiXJVxjfNyZi41iKE3rXXHMf"⟩
      "https://gateway.thegraph.com/api/"
      "/subgraphs/id/Hc3vTLxWmtyrn59t2Yv3MiXJVxjfNyZi41iKE3rXXHMf"
      (by decide) (by decide) (by decide) (by decide) (by decide)
  · exact prepareUrl_case "137" apiKey
      ⟨"https://gateway.thegraph.com/api/[api-key]/subgraphs/id/G1Q6dviDfMm6hVLvCqbfeB19kLmvs7qrnBvXeFndjhaU"⟩
      "https://gateway.thegraph.com/api/"
      "/subgraphs/id/G1Q6dviDfMm6hVLvCqbfeB19kLmvs7qrnBvXeFndjhaU"
      (by decide) (by decide) (by decide) (by decide) (by decide)

/-- Concrete run of `prepareUrl_substitutes` on network "1" with a credential
that needs escaping ("a/b" encodes to "a%2Fb"). -/
theorem prepareUrl_substitutes_witness :
    "1" ∈ SUBGRAPH_URLS.map (fun e => e.1) ∧
    (∃ entry pre suf, lookupUrls "1" = some entry ∧
      entry.decentralized = pre ++ "[api-key]" ++ suf ∧
      prepareUrl "1" "a/b" = .ok (pre ++ encodeURIComponent "a/b" ++ suf) ∧
      hasSubstr "[api-key]".data
        (pre ++ encodeURIComponent "a/b" ++ suf).data = false) :=
  ⟨by decide, prepareUrl_substitutes "1" "a/b" (by decide)⟩


/-- C1: when the first two pages hold exactly 1000 pools and the third holds
400, `returnTags` issues exactly 3 requests; the recorded cursors are 0 for
the 1st request and the `createdAtTimestamp` of the previous page's last pool
for the 2nd and 3rd; and the loop stops after the 400-row page, returning the
three transformed pages concatenated. -/
theorem pagination_three_pages (chainId apiKey url : String)
    (server : Nat → HttpResponse) (p1 p2 p3 : List Pool) (fuel : Nat)
    (hprep : prepareUrl chainId apiKey = .ok url)
    (h1 : (fetchData (server 0)).2 = .ok p1) (l1 : p1.length = 1000)
    (h2 : (fetchData (server 1)).2 = .ok p2) (l2 : p2.length = 1000)
    (h3 : (fetchData (server 2)).2 = .ok p3) (l3 : p3.length = 400)
    (hfuel : 3 ≤ fuel) :
    returnTags chainId apiKey server fuel =
      some ([0, (p1.getLastD defaultPool).createdAtTimestamp,
             (p2.getLastD defaultPool).createdAtTimestamp],
        .ok (transformPoolsToTags chainId p1 ++ transformPoolsToTags chainId p2 ++
             transformPoolsToTags chainId p3)) := by
  obtain ⟨f, rfl⟩ : ∃ f, fuel = (f + 2) + 1 := ⟨fuel - 3, by omega⟩
  unfold returnTags
  rw [hprep]
  rw [aux_step_full chainId server (f + 2) 0 0 [] [] p1 h1 l1]
  rw [show f + 2 = (f + 1) + 1 from by omega, show (0 : Nat) + 1 = 1 from rfl]
  rw [aux_step_full chainId server (f + 1) 1 _ _ _ p2 h2 l2]
  rw [show (1 : Nat) + 1 = 2 from rfl]
  rw [aux_step_short chainId server f 2 _ _ _ p3 h3 (by omega)]
  simp [List.append_assoc]

/-- Concrete run of `pagination_three_pages` against `threePageServer`. -/
theorem pagination_three_pages_witness :
    returnTags "1" "key" threePageServer 3 =
      some ([0,
        ((List.replicate 1000 sampleGoodPool).getLastD defaultPool).createdAtTimestamp,
        ((List.replicate 1000 sampleGoodPool).getLastD defaultPool).createdAtTimestamp],
        .ok (transformPoolsToTags "1" (List.replicate 1000 sampleGoodPool) ++
             transformPoolsToTags "1" (List.replicate 1000 sampleGoodPool) ++
             transformPoolsToTags "1" (List.replicate 400 sampleGoodPool))) :=
  pagination_three_pages "1" "key"
    "https://gateway.thegraph.com/api/key/subgraphs/id/7okunX6MGm2pdFK7WJSwm9o82okpBLEzfGrqHDDMWYvq"
    threePageServer (List.replicate 1000 sampleGoodPool)
    (List.replicate 1000 sampleGoodPool) (List.replicate 400 sampleGoodPool) 3
    rfl rfl (List.length_replicate 1000 sampleGoodPool)
    rfl (List.length_replicate 1000 sampleGoodPool)
    rfl (List.length_replicate 400 sampleGoodPool) (by omega)

/-- C8: the pagination loop terminates for every response sequence in which
some page holds strictly fewer than 1000 pools (given fuel to reach it), and
whenever the loop reaches such a short page it ends there, with the short
page's pools transformed and appended to the accumulated tags. -/
theorem pagination_terminates (chainId : String) (server : Nat → HttpResponse)
    (k fuel : Nat) (pk : List Pool)
    (hok : (fetchData (server k)).2 = .ok pk) (hshort : pk.length < 1000)
    (hfuel : k < fuel) :
    (∃ r, returnTagsAux chainId server fuel 0 0 [] [] = some r) ∧
    (∀ f ts acc reqs, returnTagsAux chainId server (f + 1) k ts acc reqs =
      some (reqs ++ [ts], .ok (acc ++ transformPoolsToTags chainId pk))) := by
  constructor
  · exact aux_terminates chainId server k 0 fuel 0 [] [] hfuel
      ⟨pk, by rwa [Nat.zero_add], hshort⟩
  · intro f ts acc reqs
    exact aux_step_short chainId server f k ts acc reqs pk hok (by omega)

/-- Concrete run of `pagination_terminates` on a server whose first page is
empty. -/
theorem pagination_terminates_witness :
    (∃ r, returnTagsAux "1" emptyPageServer 1 0 0 [] [] = some r) ∧
    (∀ f ts acc reqs, returnTagsAux "1" emptyPageServer (f + 1) 0 ts acc reqs =
      some (reqs ++ [ts], .ok (acc ++ transformPoolsToTags "1" []))) :=
  pagination_terminates "1" emptyPageServer 0 1 [] rfl (by decide) (by omega)

/-- C9: if the fetch of any reached page fails, `returnTags` raises an error
instead of returning a tag list; the raised error message is the original
cause's message wrapped with the added context "Failed fetching data" (the
`catch` block re-throws `Failed fetching data: ${error}`), so it contains both
the context and the cause. -/
theorem fetch_failure_aborts (chainId apiKey url : String)
    (server : Nat → HttpResponse) (pages : Nat → List Pool) (k fuel : Nat)
    (e : String)
    (hprep : prepareUrl chainId apiKey = .ok url)
    (hfull : ∀ j, j < k → (fetchData (server j)).2 = .ok (pages j) ∧
      (pages j).length = 1000)
    (herr : (fetchData (server k)).2 = .error e)
    (hfuel : k < fuel) :
    ∃ reqs, returnTags chainId apiKey server fuel =
        some (reqs, .error ("Failed fetching data: Error: " ++ e)) ∧
      hasSubstr "Failed fetching data".data
        ("Failed fetching data: Error: " ++ e).data = true ∧
      hasSubstr e.data ("Failed fetching data: Error: " ++ e).data = true := by
  obtain ⟨reqs', hr⟩ := aux_errs chainId server pages e k 0 fuel 0 [] []
    (fun j hj => by simpa using hfull j hj) (by simpa using herr) hfuel
  refine ⟨reqs', ?_, ?_, ?_⟩
  · unfold returnTags
    rw [hprep]
    exact hr
  · have hsplit : ("Failed fetching data: Error: " : String).data =
        "Failed fetching data".data ++ ": Error: ".data := by decide
    have hd : ("Failed fetching data: Error: " ++ e).data =
        "Failed fetching data".data ++ (": Error: ".data ++ e.data) := by
      rw [String.data_append, hsplit, List.append_assoc]
    rw [hd]
    exact hasSubstr_self_append _ _
  · have hd2 : ("Failed fetching data: Error: " ++ e).data =
        "Failed fetching data: Error: ".data ++ (e.data ++ []) := by
      rw [String.data_append, List.append_nil]
    rw [hd2]
    exact hasSubstr_parts _ _ _

/-- Concrete run of `fetch_failure_aborts`: the very first page fetch reports
GraphQL errors, and the invocation fails with the wrapped message. -/
theorem fetch_failure_aborts_witness :
    ∃ reqs, returnTags "1" "key" boomServer 1 =
        some (reqs, .error ("Failed fetching data: Error: " ++
          "GraphQL errors occurred: see logs for details.")) ∧
      hasSubstr "Failed fetching data".data
        ("Failed fetching data: Error: " ++
          "GraphQL errors occurred: see logs for details.").data = true ∧
      hasSubstr "GraphQL errors occurred: see logs for details.".data
        ("Failed fetching data: Error: " ++
          "GraphQL errors occurred: see logs for details.").data = true :=
  fetch_failure_aborts "1" "key"
    "https://gateway.thegraph.com/api/key/subgraphs/id/7okunX6MGm2pdFK7WJSwm9o82okpBLEzfGrqHDDMWYvq"
    boomServer (fun _ => []) 0 1 "GraphQL errors occurred: see logs for details."
    rfl (fun j hj => absurd hj (by omega)) rfl (by omega)

/-- C5: a response body carrying a present, non-empty `errors` array makes
`fetchData` fail with the aggregate GraphQL error — even when `data.pools` is
present in the same body — after logging one `GraphQL error: …` line per
entry; consequently a `returnTags` invocation that receives such a response on
any reached page fails as a whole. -/
theorem upstream_errors_fail (resp : HttpResponse) (es : List GQLError)
    (hok : resp.ok = true) (herr : resp.body.errors = some es) (hne : es ≠ []) :
    (fetchData resp).1 = es.map (fun e => "GraphQL error: " ++ e.message) ∧
    (fetchData resp).2 = .error "GraphQL errors occurred: see logs for details." ∧
    (∀ (chainId apiKey url : String) (server : Nat → HttpResponse)
        (pages : Nat → List Pool) (k fuel : Nat),
      prepareUrl chainId apiKey = .ok url →
      (∀ j, j < k → (fetchData (server j)).2 = .ok (pages j) ∧
        (pages j).length = 1000) →
      server k = resp → k < fuel →
      ∃ reqs, returnTags chainId apiKey server fuel = some (reqs,
        .error ("Failed fetching data: Error: " ++
          "GraphQL errors occurred: see logs for details."))) := by
  have hfd : fetchData resp = (es.map (fun e => "GraphQL error: " ++ e.message),
      .error "GraphQL errors occurred: see logs for details.") := by
    unfold fetchData
    rw [if_neg (by simp [hok]), herr]
  refine ⟨by rw [hfd], by rw [hfd], ?_⟩
  intro chainId apiKey url server pages k fuel hprep hfull hsk hfuel
  obtain ⟨reqs', hr⟩ := aux_errs chainId server pages
    "GraphQL errors occurred: see logs for details." k 0 fuel 0 [] []
    (fun j hj => by simpa using hfull j hj)
    (by rw [Nat.zero_add, hsk, hfd]) hfuel
  refine ⟨reqs', ?_⟩
  unfold returnTags
  rw [hprep]
  exact hr

/-- Concrete run of `upstream_errors_fail` on a body holding both
`data.pools` and `errors: [{message:"boom"}]`. -/
theorem upstream_errors_fail_witness :
    (fetchData boomResponse).1 =
      [⟨"boom"⟩].map (fun e : GQLError => "GraphQL error: " ++ e.message) ∧
    (fetchData boomResponse).2 =
      .error "GraphQL errors occurred: see logs for details." ∧
    (∀ (chainId apiKey url : String) (server : Nat → HttpResponse)
        (pages : Nat → List Pool) (k fuel : Nat),
      prepareUrl chainId apiKey = .ok url →
      (∀ j, j < k → (fetchData (server j)).2 = .ok (pages j) ∧
        (pages j).length = 1000) →
      server k = boomResponse → k < fuel →
      ∃ reqs, returnTags chainId apiKey server fuel = some (reqs,
        .error ("Failed fetching data: Error: " ++
          "GraphQL errors occurred: see logs for details."))) :=
  upstream_errors_fail boomResponse [⟨"boom"⟩] rfl rfl (by decide)

/-- C10: an `errors` field present as the empty array `[]` still makes
`fetchData` fail with the aggregate GraphQL error (logging nothing), even
alongside valid `data.pools`: `if (result.errors)` tests only the presence
(truthiness) of the field, and an empty array is truthy. -/
theorem empty_errors_array_fails (resp : HttpResponse)
    (hok : resp.ok = true) (herr : resp.body.errors = some []) :
    (fetchData resp).2 = .error "GraphQL errors occurred: see logs for details." ∧
    (fetchData resp).1 = [] := by
  have hfd : fetchData resp =
      ([], .error "GraphQL errors occurred: see logs for details.") := by
    unfold fetchData
    rw [if_neg (by simp [hok]), herr]
    rfl
  exact ⟨by rw [hfd], by rw [hfd]⟩

/-- Concrete run of `empty_errors_array_fails` on a body holding both
`data.pools` and `errors: []`. -/
theorem empty_errors_array_fails_witness :
    (fetchData emptyErrorsResponse).2 =
      .error "GraphQL errors occurred: see logs for details." ∧
    (fetchData emptyErrorsResponse).1 = [] :=
  empty_errors_array_fails emptyErrorsResponse rfl rfl
